import Mathlib

/-!
Shallow embedding of the Omnisearch cache / synchronization layer
(`src/cache-manager.ts` and the plugin entry point `main.ts`).

Modelling conventions used throughout:
* The Dexie tables (`database.searchHistory`, `database.minisearch`) are
  modelled as Lean lists holding the rows in primary-key (insertion) order:
  `toArray` returns the list, `clear` empties it, `bulkAdd xs` on the
  emptied table stores exactly `xs` in order.
* JavaScript `Map` objects are modelled as association lists with
  replace-on-set semantics.
* JavaScript strings are modelled as `String` or, where character-level
  surgery is proved about (`substring`), as `List Char`; `substring(0, k)`
  is `take k` and `substring(k)` is `drop k` (JS clamps negative/overlong
  arguments exactly as truncated `Nat` subtraction and `take`/`drop` do).
* `async` functions that cannot reject are modelled as total functions;
  a JS value that may be `undefined` is modelled as `Option`.
* External collaborators (MD5, JSON.stringify, the text-extractor
  capability, the diacritics remover) enter as function parameters, so
  every theorem quantifies over them.
-/

namespace Omnisearch

/-! ### Search history store

Embeds `CacheManager.addToSearchHistory` and `CacheManager.getSearchHistory`
(`src/cache-manager.ts` lines 159-181).  A history row `{ query }` is
modelled by its `query` string.  The private field `nextQueryIsEmpty` and
the persisted `search_history` table form the state. -/

structure SearchHistoryState where
  nextQueryIsEmpty : Bool
  searchHistory : List String
deriving DecidableEq

/-- Embedding of `addToSearchHistory` (lines 159-171).  JS `!query` on a
string is the test `query = ""`.  The sequence `toArray`, `filter`,
`reverse`, `unshift`, `slice(0, 10)`, `clear`, `bulkAdd` becomes the pure
list computation below; `bulkAdd history` after `clear` makes the table
contents exactly `history`. -/
def addToSearchHistory (query : String) (st : SearchHistoryState) : SearchHistoryState :=
  if query = "" then
    { st with nextQueryIsEmpty := true }
  else
    let history := st.searchHistory
    let history := (history.filter (fun s => s ≠ query)).reverse
    let history := query :: history
    let history := history.take 10
    { nextQueryIsEmpty := false, searchHistory := history }

/-- Embedding of `getSearchHistory` (lines 173-181): read the table, reverse
it, and prepend the empty string when `nextQueryIsEmpty` is set. -/
def getSearchHistory (st : SearchHistoryState) : List String :=
  let data := st.searchHistory.reverse
  if st.nextQueryIsEmpty then "" :: data else data

/-- Folding `addToSearchHistory` over a list of queries, oldest first. -/
def addQueries (queries : List String) (st : SearchHistoryState) : SearchHistoryState :=
  queries.foldl (fun s q => addToSearchHistory q s) st

/-- The empty search-history state: flag clear, no persisted rows. -/
def initialHistoryState : SearchHistoryState :=
  { nextQueryIsEmpty := false, searchHistory := [] }

/-! ### Snapshot store

Embeds `CacheManager.getMinisearchCache` and `CacheManager.writeMinisearchCache`
(`src/cache-manager.ts` lines 200-229).  The serialized Minisearch index
(`AsPlainObject`) is opaque to this layer, so the row is polymorphic in it. -/

structure DocumentRef where
  path : String
  mtime : Nat
deriving DecidableEq

structure MinisearchCacheRow (σ : Type) where
  date : String
  paths : List DocumentRef
  data : σ
deriving DecidableEq

/-- Embedding of `getMinisearchCache` (lines 200-215).  The argument is the
outcome of the Dexie read: `Except.ok rows` when `toArray` succeeds (the
table may be empty), `Except.error` when it throws (corrupt store).  The
first component of the result is the returned value — `toArray()[0]` is
`undefined` on an empty table, hence `Option`; the second component records
whether the user-visible `Notice` was shown.  The `try`/`catch` makes the
function total: it never re-raises. -/
def getMinisearchCache {σ : Type} (dbRead : Except Unit (List (MinisearchCacheRow σ))) :
    Option (MinisearchCacheRow σ) × Bool :=
  match dbRead with
  | Except.ok rows => (rows.head?, false)
  | Except.error _ => (none, true)

/-- Embedding of `writeMinisearchCache` (lines 217-229).  `indexed` is the
`Map<string, number>` argument as an association list; `date` stands for
`new Date().toISOString()` and `data` for `minisearch.toJSON()`.  The body
clears the table and then adds a single fresh row, so the result does not
depend on the previous table contents. -/
def writeMinisearchCache {σ : Type} (date : String) (indexed : List (String × Nat)) (data : σ)
    (_db : List (MinisearchCacheRow σ)) : List (MinisearchCacheRow σ) :=
  let paths := indexed.map (fun kv => { path := kv.1, mtime := kv.2 : DocumentRef })
  [{ date := date, paths := paths, data := data }]

/-! ### Document extractor: content dispatch

Embeds the format dispatch of `getAndMapIndexedDocument`
(`src/cache-manager.ts` lines 36-80).  The format predicates
(`isFilePlaintext`, `isFileCanvas`, `isFilePDF`, `isFileImage`, from
`tools/utils`) and the optional text-extractor capability are external
collaborators and enter as parameters.  The result records which reader
produced the content, or the thrown `Error('Invalid file format: ...')`. -/

structure TextExtractor where
  canFileBeExtracted : String → Bool

inductive ContentSource where
  | plainText
  | canvas
  | extractorText
  | pdfText
  | imageText
deriving DecidableEq

/-- Embedding of the `if`/`else` chain of `getAndMapIndexedDocument`
(lines 40-80): plaintext, then canvas, then — when a text extractor is
registered — the extractor or an error, and only when no extractor is
registered the built-in PDF / image readers. -/
def contentDispatch (isFilePlaintext isFileCanvas isFilePDF isFileImage : String → Bool)
    (extractor : Option TextExtractor) (path : String) : Except String ContentSource :=
  if isFilePlaintext path then Except.ok ContentSource.plainText
  else if isFileCanvas path then Except.ok ContentSource.canvas
  else
    match extractor with
    | some ex =>
      if ex.canFileBeExtracted path then Except.ok ContentSource.extractorText
      else Except.error ("Invalid file format: " ++ path)
    | none =>
      if isFilePDF path then Except.ok ContentSource.pdfText
      else if isFileImage path then Except.ok ContentSource.imageText
      else Except.error ("Invalid file format: " ++ path)

/-! ### Document extractor: excalidraw comment stripping

Embeds the excalidraw post-processing of `getAndMapIndexedDocument`
(`src/cache-manager.ts` lines 100-109).  Content is a character list; a
metadata section carries its `type` and the pair
`(position.start.offset, position.end.offset)`. -/

structure SectionCache where
  type : String
  position : Nat × Nat
deriving DecidableEq

/-- One iteration of the loop at lines 105-108:
`content = content.substring(0, start.offset - 1) + content.substring(end.offset)`.
JS `substring` clamps out-of-range arguments exactly as truncated `Nat`
subtraction and `take`/`drop` do. -/
def stripCommentRange (content : List Char) (range : Nat × Nat) : List Char :=
  content.take (range.1 - 1) ++ content.drop range.2

/-- The loop at lines 105-108: the ranges are processed in the order the
metadata supplies them (`for ... of comments.map(c => c.position)`). -/
def stripCommentRanges (content : List Char) (ranges : List (Nat × Nat)) : List Char :=
  ranges.foldl stripCommentRange content

/-- Embedding of lines 102-109: when the frontmatter carries the
`excalidraw-plugin` flag, strip the ranges of the metadata sections whose
type is `comment`; otherwise leave the content unchanged. -/
def excalidrawPostprocess (excalidrawFlag : Bool) (sections : List SectionCache)
    (content : List Char) : List Char :=
  if excalidrawFlag then
    stripCommentRanges content
      ((sections.filter (fun s => s.type = "comment")).map (fun s => s.position))
  else content

/-! ### Live cache

Embeds the `documents` map of `CacheManager` together with
`addToLiveCache` and `getDocument` (`src/cache-manager.ts` lines 136-157).
`getAndMapIndexedDocument` touches the vault, so it enters as a parameter
`extract` returning either the document or the thrown error. -/

structure IndexedDocument where
  basename : String
  content : String
  path : String
  mtime : Nat
  tags : List String
  aliases : String
  headings1 : String
  headings2 : String
  headings3 : String
deriving DecidableEq

/-- JS `Map.get` on the association-list model. -/
def mapGet (documents : List (String × IndexedDocument)) (key : String) :
    Option IndexedDocument :=
  (documents.find? (fun kv => kv.1 = key)).map (fun kv => kv.2)

/-- JS `Map.set` on the association-list model: replace the entry in place
when the key exists, append otherwise. -/
def mapSet (documents : List (String × IndexedDocument)) (key : String) (v : IndexedDocument) :
    List (String × IndexedDocument) :=
  if documents.any (fun kv => kv.1 = key) then
    documents.map (fun kv => if kv.1 = key then (key, v) else kv)
  else documents ++ [(key, v)]

/-- Embedding of `addToLiveCache` (lines 138-145): extract and store; the
`catch` turns an extraction failure into a logged warning and leaves the
map unchanged. -/
def addToLiveCache (extract : String → Except Unit IndexedDocument) (path : String)
    (documents : List (String × IndexedDocument)) : List (String × IndexedDocument) :=
  match extract path with
  | Except.ok doc => mapSet documents path doc
  | Except.error _ => documents

/-- Embedding of `getDocument` (lines 151-157): return the cached entry if
present, else `addToLiveCache` and re-read.  The trailing non-null
assertion `get(path)!` in the source can still produce `undefined` when
extraction failed, hence the `Option` result paired with the map's
post-state. -/
def getDocument (extract : String → Except Unit IndexedDocument) (path : String)
    (documents : List (String × IndexedDocument)) :
    Option IndexedDocument × List (String × IndexedDocument) :=
  match mapGet documents path with
  | some doc => (some doc, documents)
  | none =>
    let documents' := addToLiveCache extract path documents
    (mapGet documents' path, documents')

/-! ### Index engine and the create / delete event handlers

Modelled from the spec: the bodies of `addToIndex`, `removeFromIndex` and
`addNonExistingToIndex` live in `search.ts`, which is not among the
provided sources; only their caller (the plugin entry point,
`src/unnamed/part_000`) is.  Per the spec, each path is `absent`, `live`,
or `ghost`: live documents are keyed by path, ghost documents by basename,
and a ghost is destroyed when a real document with that identity
reappears.  The basename function is an external collaborator and enters
as a parameter. -/

structure IndexEngineState where
  live : List String
  ghosts : List String
deriving DecidableEq

/-- Modelled from the spec: `addToIndex` — "create(path) → extract and
insert; absent|ghost → live", destroying any ghost with that identity. -/
def addToIndex (basenameOf : String → String) (path : String) (st : IndexEngineState) :
    IndexEngineState :=
  { live := path :: st.live.filter (fun q => q ≠ path),
    ghosts := st.ghosts.filter (fun g => g ≠ basenameOf path) }

/-- Modelled from the spec: `removeFromIndex` — remove the live document
with the given path from the index. -/
def removeFromIndex (path : String) (st : IndexEngineState) : IndexEngineState :=
  { st with live := st.live.filter (fun q => q ≠ path) }

/-- Modelled from the spec: `addNonExistingToIndex` — insert a ghost
document keyed by the given name. -/
def addNonExistingToIndex (name : String) (st : IndexEngineState) : IndexEngineState :=
  { st with ghosts := name :: st.ghosts.filter (fun g => g ≠ name) }

/-- The vault `create` event handler (`src/unnamed/part_000` lines 35-39):
`addToIndex(file)`. -/
def onCreate (basenameOf : String → String) (path : String) (st : IndexEngineState) :
    IndexEngineState :=
  addToIndex basenameOf path st

/-- The vault `delete` event handler (`src/unnamed/part_000` lines 40-46):
`removeFromIndex(file.path)` then `addNonExistingToIndex(file.name)`. -/
def onDelete (basenameOf : String → String) (path : String) (st : IndexEngineState) :
    IndexEngineState :=
  addNonExistingToIndex (basenameOf path) (removeFromIndex path st)

/-! ### Documents checksum

Embeds `CacheManager.getDocumentsChecksum` (`src/cache-manager.ts` lines
185-198).  `makeMD5` and `JSON.stringify` are external collaborators and
enter as parameters.  JS `Array.prototype.sort` sorts the caller's array
in place with the comparator and returns that same array; the comparator
at lines 188-195 orders by `path`.  The sort is modelled by
`List.insertionSort` over the comparator's order, and the function's
result is paired with the post-call contents of the argument array. -/

def pathLe (a b : IndexedDocument) : Prop := a.path ≤ b.path

def pathLt (a b : IndexedDocument) : Prop := a.path < b.path

instance : DecidableRel pathLe := fun a b => inferInstanceAs (Decidable (a.path ≤ b.path))

instance : IsTotal IndexedDocument pathLe := ⟨fun a b => le_total a.path b.path⟩

instance : IsTrans IndexedDocument pathLe := ⟨fun _ _ _ h1 h2 => le_trans h1 h2⟩

instance : IsAntisymm IndexedDocument pathLt :=
  ⟨fun a _ h1 h2 => absurd (lt_trans h1 h2) (lt_irrefl a.path)⟩

/-- The in-place sort `documents.sort((a, b) => ...)` of lines 188-195. -/
def sortDocuments (documents : List IndexedDocument) : List IndexedDocument :=
  List.insertionSort pathLe documents

/-- Embedding of `getDocumentsChecksum`: first component the returned
checksum, second component the contents of the caller's array after the
call (mutated by the in-place sort). -/
def getDocumentsChecksum (makeMD5 : String → String)
    (stringify : List IndexedDocument → String) (documents : List IndexedDocument) :
    String × List IndexedDocument :=
  let sorted := sortDocuments documents
  (makeMD5 (stringify sorted), sorted)

/-- Concrete document used to exercise the checksum theorems. -/
def docAlpha : IndexedDocument :=
  { basename := "alpha", content := "alpha text", path := "alpha.md", mtime := 1,
    tags := [], aliases := "", headings1 := "", headings2 := "", headings3 := "" }

/-- Concrete document used to exercise the checksum theorems. -/
def docBeta : IndexedDocument :=
  { basename := "beta", content := "beta text", path := "beta.md", mtime := 2,
    tags := [], aliases := "", headings1 := "", headings2 := "", headings3 := "" }

deriving instance DecidableEq for Except

/-! ## Theorems -/

/-- C1: recording the eleven queries a, b, a, c, d, e, f, g, h, i, j on the
empty store leaves exactly 10 persisted entries with a appearing exactly
once — but the history does NOT read back most-recent-first: the code
stores the list newest-first while both its own read-modify step and
`getSearchHistory` assume oldest-first storage, so the read-back order is
scrambled (i, g, e, c, b, a, d, f, h, j instead of
j, i, h, g, f, e, d, c, a, b). -/
theorem searchHistory_eleven_queries_evaluation :
    getSearchHistory (addQueries ["a","b","a","c","d","e","f","g","h","i","j"] initialHistoryState)
      = ["i","g","e","c","b","a","d","f","h","j"] ∧
    (getSearchHistory (addQueries ["a","b","a","c","d","e","f","g","h","i","j"]
      initialHistoryState)).length = 10 ∧
    (getSearchHistory (addQueries ["a","b","a","c","d","e","f","g","h","i","j"]
      initialHistoryState)).count "a" = 1 ∧
    getSearchHistory (addQueries ["a","b","a","c","d","e","f","g","h","i","j"] initialHistoryState)
      ≠ ["j","i","h","g","f","e","d","c","a","b"] := by
  refine ⟨rfl, rfl, rfl, ?_⟩
  decide

/-- C2 counterexample: when the persisted row is merely missing (the read
succeeds on an empty table), `getMinisearchCache` surfaces NO user-visible
warning — refuting the claim that a missing row triggers the warning. -/
theorem getMinisearchCache_missing_row_counterexample :
    (getMinisearchCache (Except.ok ([] : List (MinisearchCacheRow Unit)))).1 = none ∧
    ¬ (getMinisearchCache (Except.ok ([] : List (MinisearchCacheRow Unit)))).2 = true := by
  decide

/-- C2 (amended): `getMinisearchCache` never raises (it is total by the
`try`/`catch`); it returns the first stored row — and no warning — when
the read succeeds; it returns null together with the user-visible warning
exactly when the read itself fails; when the read succeeds but no row is
stored it returns undefined (`none`) silently, with no warning. -/
theorem getMinisearchCache_load_contract {σ : Type} (rows : List (MinisearchCacheRow σ))
    (e : Unit) :
    getMinisearchCache (Except.error e : Except Unit (List (MinisearchCacheRow σ)))
      = (none, true) ∧
    (getMinisearchCache (Except.ok rows)).2 = false ∧
    (getMinisearchCache (Except.ok rows)).1 = rows.head? ∧
    ((getMinisearchCache (Except.ok rows)).1 = none ↔ rows = []) := by
  refine ⟨rfl, rfl, rfl, ?_⟩
  simp [getMinisearchCache, List.head?_eq_none_iff]

/-- C3 counterexample: on the excalidraw document ABCDEFGHIJ with the two
non-overlapping comment ranges (2, 4) and (7, 9) supplied in ascending
(document) order, extraction yields AEFGHI: the bytes H and I of the
second range survive, and the output is not the claimed ABEFGJ (the input
with exactly the two ranges removed).  Even with the ranges supplied in
descending order the output is AEFJ, not ABEFGJ, because each removal also
deletes the byte just before the range start (`start.offset - 1`). -/
theorem excalidraw_two_ranges_counterexample :
    excalidrawPostprocess true
      [{ type := "comment", position := (2, 4) }, { type := "comment", position := (7, 9) }]
      "ABCDEFGHIJ".toList = "AEFGHI".toList ∧
    'H' ∈ excalidrawPostprocess true
      [{ type := "comment", position := (2, 4) }, { type := "comment", position := (7, 9) }]
      "ABCDEFGHIJ".toList ∧
    excalidrawPostprocess true
      [{ type := "comment", position := (2, 4) }, { type := "comment", position := (7, 9) }]
      "ABCDEFGHIJ".toList ≠ "ABEFGJ".toList ∧
    excalidrawPostprocess true
      [{ type := "comment", position := (7, 9) }, { type := "comment", position := (2, 4) }]
      "ABCDEFGHIJ".toList ≠ "ABEFGJ".toList := by
  refine ⟨rfl, ?_, ?_, ?_⟩ <;> decide

/-- C3 (amended): extraction removes the comment ranges in the order the
metadata supplies them, each removal deleting the bytes from
`start.offset - 1` up to (excluding) `end.offset` of the current content;
when two in-bounds, non-overlapping ranges are supplied in descending
offset order, the result is the input with each range plus the single byte
immediately preceding it removed, and all remaining text byte-exact. -/
theorem excalidraw_descending_ranges_strip (content : List Char) (s1 e1 s2 e2 : Nat)
    (h1 : 1 ≤ s1) (h2 : s1 ≤ e1) (h3 : e1 < s2) (h4 : s2 ≤ e2) (h5 : e2 ≤ content.length) :
    excalidrawPostprocess true
      [{ type := "comment", position := (s2, e2) }, { type := "comment", position := (s1, e1) }]
      content
      = content.take (s1 - 1) ++ (content.take (s2 - 1)).drop e1 ++ content.drop e2 := by
  have hstrip : excalidrawPostprocess true
      [{ type := "comment", position := (s2, e2) }, { type := "comment", position := (s1, e1) }]
      content = stripCommentRanges content [(s2, e2), (s1, e1)] := by
    simp [excalidrawPostprocess]
  rw [hstrip]
  simp only [stripCommentRanges, List.foldl_cons, List.foldl_nil, stripCommentRange]
  have hA : s1 - 1 ≤ (content.take (s2 - 1)).length := by
    rw [List.length_take]; omega
  have hB : e1 ≤ (content.take (s2 - 1)).length := by
    rw [List.length_take]; omega
  rw [List.take_append_of_le_length hA, List.drop_append_of_le_length hB,
    List.take_take, Nat.min_eq_left (by omega), List.append_assoc]

/-- C3 witness: the amended statement evaluated on ABCDEFGHIJ with the
descending-supplied ranges (7, 9) then (2, 4), yielding AEFJ. -/
theorem excalidraw_descending_ranges_strip_witness :
    excalidrawPostprocess true
      [{ type := "comment", position := (7, 9) }, { type := "comment", position := (2, 4) }]
      "ABCDEFGHIJ".toList
      = "ABCDEFGHIJ".toList.take 1 ++ ("ABCDEFGHIJ".toList.take 6).drop 4
        ++ "ABCDEFGHIJ".toList.drop 9 :=
  excalidraw_descending_ranges_strip "ABCDEFGHIJ".toList 2 4 7 9
    (by decide) (by decide) (by decide) (by decide) (by decide)

/-- C4: for every path, after the create event and then the delete event
for that path, the path is absent from the Index Engine's live documents
and a ghost entry keyed by the path's basename exists, keeping references
to the deleted document searchable.  (Engine operations modelled from the
spec, `search.ts` not being among the sources.) -/
theorem create_then_delete_leaves_ghost (basenameOf : String → String) (path : String)
    (st : IndexEngineState) :
    path ∉ (onDelete basenameOf path (onCreate basenameOf path st)).live ∧
    basenameOf path ∈ (onDelete basenameOf path (onCreate basenameOf path st)).ghosts := by
  constructor
  · simp [onDelete, onCreate, addToIndex, removeFromIndex, addNonExistingToIndex,
      List.mem_filter]
  · simp [onDelete, addNonExistingToIndex]

/-- C5 counterexample: for a PDF path with a registered text extractor that
does not accept the path, extraction throws the invalid-format error
instead of falling back to the built-in PDF reader — refuting the claimed
fallback when the capability "does not accept the path". -/
theorem contentDispatch_registered_rejecting_counterexample :
    contentDispatch (fun _ => false) (fun _ => false) (fun _ => true) (fun _ => false)
      (some { canFileBeExtracted := fun _ => false }) "doc.pdf"
      = Except.error "Invalid file format: doc.pdf" ∧
    contentDispatch (fun _ => false) (fun _ => false) (fun _ => true) (fun _ => false)
      (some { canFileBeExtracted := fun _ => false }) "doc.pdf"
      ≠ Except.ok ContentSource.pdfText := by
  exact ⟨rfl, by decide⟩

/-- C5 (amended): for non-plaintext, non-canvas paths, extraction delegates
to the capability exactly when it is registered and accepts the path; the
built-in PDF / image readers run exactly when the capability is absent;
extraction fails with the invalid-format error exactly when the capability
is registered but rejects the path (no fallback), or is absent and neither
built-in reader applies. -/
theorem contentDispatch_image_pdf_contract
    (isFilePlaintext isFileCanvas isFilePDF isFileImage : String → Bool)
    (extractor : Option TextExtractor) (path : String)
    (hpt : isFilePlaintext path = false) (hcv : isFileCanvas path = false) :
    (contentDispatch isFilePlaintext isFileCanvas isFilePDF isFileImage extractor path
        = Except.ok ContentSource.extractorText
      ↔ ∃ ex, extractor = some ex ∧ ex.canFileBeExtracted path = true) ∧
    (contentDispatch isFilePlaintext isFileCanvas isFilePDF isFileImage extractor path
        = Except.ok ContentSource.pdfText
      ↔ extractor = none ∧ isFilePDF path = true) ∧
    (contentDispatch isFilePlaintext isFileCanvas isFilePDF isFileImage extractor path
        = Except.ok ContentSource.imageText
      ↔ extractor = none ∧ isFilePDF path = false ∧ isFileImage path = true) ∧
    (contentDispatch isFilePlaintext isFileCanvas isFilePDF isFileImage extractor path
        = Except.error ("Invalid file format: " ++ path)
      ↔ (∃ ex, extractor = some ex ∧ ex.canFileBeExtracted path = false) ∨
        (extractor = none ∧ isFilePDF path = false ∧ isFileImage path = false)) := by
  cases extractor with
  | none =>
    simp only [contentDispatch, hpt, hcv]
    split_ifs <;> simp_all
  | some ex =>
    simp only [contentDispatch, hpt, hcv]
    split_ifs <;> simp_all

/-- C5 witness: the contract evaluated for a PDF path with no registered
extractor: extraction falls back to the built-in PDF reader. -/
theorem contentDispatch_image_pdf_contract_witness :
    (contentDispatch (fun _ => false) (fun _ => false) (fun _ => true) (fun _ => false)
        none "doc.pdf" = Except.ok ContentSource.extractorText
      ↔ ∃ ex, (none : Option TextExtractor) = some ex ∧
          ex.canFileBeExtracted "doc.pdf" = true) ∧
    (contentDispatch (fun _ => false) (fun _ => false) (fun _ => true) (fun _ => false)
        none "doc.pdf" = Except.ok ContentSource.pdfText
      ↔ (none : Option TextExtractor) = none ∧ (fun (_ : String) => true) "doc.pdf" = true) ∧
    (contentDispatch (fun _ => false) (fun _ => false) (fun _ => true) (fun _ => false)
        none "doc.pdf" = Except.ok ContentSource.imageText
      ↔ (none : Option TextExtractor) = none ∧ (fun (_ : String) => true) "doc.pdf" = false ∧
        (fun (_ : String) => false) "doc.pdf" = true) ∧
    (contentDispatch (fun _ => false) (fun _ => false) (fun _ => true) (fun _ => false)
        none "doc.pdf" = Except.error ("Invalid file format: " ++ "doc.pdf")
      ↔ (∃ ex, (none : Option TextExtractor) = some ex ∧
          ex.canFileBeExtracted "doc.pdf" = false) ∨
        ((none : Option TextExtractor) = none ∧ (fun (_ : String) => true) "doc.pdf" = false ∧
          (fun (_ : String) => false) "doc.pdf" = false)) :=
  contentDispatch_image_pdf_contract (fun _ => false) (fun _ => false) (fun _ => true)
    (fun _ => false) none "doc.pdf" rfl rfl

/-- C6: saving a snapshot and then loading it with no intervening writes
returns a manifest and serialized index equal to what was saved (with no
warning), and after the save exactly one stored row exists — the previous
contents of the table are replaced, not appended to. -/
theorem minisearchCache_round_trip {σ : Type} (date : String) (indexed : List (String × Nat))
    (data : σ) (db : List (MinisearchCacheRow σ)) :
    (writeMinisearchCache date indexed data db).length = 1 ∧
    getMinisearchCache (Except.ok (writeMinisearchCache date indexed data db)) =
      (some { date := date, paths := indexed.map (fun kv => { path := kv.1, mtime := kv.2 }), data := data }, false) :=
  ⟨rfl, rfl⟩

/-- C7: recording an empty query sets the pending-empty-query flag without
touching the persisted history; the next `getSearchHistory` returns the
empty string first, followed by the stored queries; a subsequent non-empty
record clears the flag, so later reads no longer prepend the empty
string. -/
theorem searchHistory_empty_query_flag (st : SearchHistoryState) (q : String) (hq : q ≠ "") :
    (addToSearchHistory "" st).searchHistory = st.searchHistory ∧
    (addToSearchHistory "" st).nextQueryIsEmpty = true ∧
    getSearchHistory (addToSearchHistory "" st) = "" :: st.searchHistory.reverse ∧
    (addToSearchHistory q (addToSearchHistory "" st)).nextQueryIsEmpty = false ∧
    getSearchHistory (addToSearchHistory q (addToSearchHistory "" st))
      = (addToSearchHistory q (addToSearchHistory "" st)).searchHistory.reverse := by
  simp [addToSearchHistory, getSearchHistory, hq]

/-- C7 witness: the empty-query flow evaluated on the empty store followed
by the non-empty query x. -/
theorem searchHistory_empty_query_flag_witness :
    (addToSearchHistory "" initialHistoryState).searchHistory
      = initialHistoryState.searchHistory ∧
    (addToSearchHistory "" initialHistoryState).nextQueryIsEmpty = true ∧
    getSearchHistory (addToSearchHistory "" initialHistoryState)
      = "" :: initialHistoryState.searchHistory.reverse ∧
    (addToSearchHistory "x" (addToSearchHistory "" initialHistoryState)).nextQueryIsEmpty
      = false ∧
    getSearchHistory (addToSearchHistory "x" (addToSearchHistory "" initialHistoryState))
      = (addToSearchHistory "x"
          (addToSearchHistory "" initialHistoryState)).searchHistory.reverse :=
  searchHistory_empty_query_flag initialHistoryState "x" (by decide)

/-- C8: for any two document lists with pairwise-distinct paths that are
permutations of each other, `getDocumentsChecksum` returns the same
checksum: sorting by path makes the serialized list — and hence the hash —
deterministic in the document set, independent of input order. -/
theorem getDocumentsChecksum_order_independent (makeMD5 : String → String)
    (stringify : List IndexedDocument → String) (docs1 docs2 : List IndexedDocument)
    (hperm : docs1.Perm docs2)
    (hpaths : docs1.Pairwise (fun a b => a.path ≠ b.path)) :
    (getDocumentsChecksum makeMD5 stringify docs1).1 =
      (getDocumentsChecksum makeMD5 stringify docs2).1 := by
  suffices h : sortDocuments docs1 = sortDocuments docs2 by
    simp [getDocumentsChecksum, h]
  have p1 : (sortDocuments docs1).Perm docs1 := List.perm_insertionSort pathLe docs1
  have p2 : (sortDocuments docs2).Perm docs2 := List.perm_insertionSort pathLe docs2
  have s1 : (sortDocuments docs1).Sorted pathLe := List.sorted_insertionSort pathLe docs1
  have s2 : (sortDocuments docs2).Sorted pathLe := List.sorted_insertionSort pathLe docs2
  have hsymm : ∀ {x y : IndexedDocument}, x.path ≠ y.path → y.path ≠ x.path :=
    fun h e => h e.symm
  have d1 : (sortDocuments docs1).Pairwise (fun a b => a.path ≠ b.path) :=
    (p1.pairwise_iff hsymm).mpr hpaths
  have d2 : (sortDocuments docs2).Pairwise (fun a b => a.path ≠ b.path) :=
    (p2.pairwise_iff hsymm).mpr ((hperm.pairwise_iff hsymm).mp hpaths)
  have st1 : (sortDocuments docs1).Sorted pathLt :=
    (s1.and d1).imp (fun h => lt_of_le_of_ne h.1 h.2)
  have st2 : (sortDocuments docs2).Sorted pathLt :=
    (s2.and d2).imp (fun h => lt_of_le_of_ne h.1 h.2)
  exact List.eq_of_perm_of_sorted (p1.trans (hperm.trans p2.symm)) st1 st2

/-- C8 witness: the two orderings of the concrete two-document set hash to
the same checksum. -/
theorem getDocumentsChecksum_order_independent_witness :
    ([docBeta, docAlpha].Perm [docAlpha, docBeta]) ∧
    ([docBeta, docAlpha].Pairwise (fun a b => a.path ≠ b.path)) ∧
    (getDocumentsChecksum (fun s => s) (fun docs => String.join (docs.map (fun d => d.path)))
        [docBeta, docAlpha]).1 =
      (getDocumentsChecksum (fun s => s) (fun docs => String.join (docs.map (fun d => d.path)))
        [docAlpha, docBeta]).1 :=
  ⟨List.Perm.swap docAlpha docBeta [], by decide,
    getDocumentsChecksum_order_independent _ _ _ _ (List.Perm.swap docAlpha docBeta [])
      (by decide)⟩

/-- C9: for a path absent from the live cache whose extraction fails,
`getDocument` resolves to undefined (`none`) — despite the declared
non-null return type — raises no error, and leaves the live cache without
an entry for that path. -/
theorem getDocument_extraction_failure_undefined
    (extract : String → Except Unit IndexedDocument) (path : String)
    (documents : List (String × IndexedDocument))
    (habsent : mapGet documents path = none)
    (hfail : extract path = Except.error ()) :
    getDocument extract path documents = (none, documents) ∧
    mapGet (getDocument extract path documents).2 path = none := by
  simp [getDocument, habsent, addToLiveCache, hfail]

/-- C9 witness: `getDocument` on the empty cache with an always-failing
extractor resolves to undefined and leaves the cache empty. -/
theorem getDocument_extraction_failure_undefined_witness :
    getDocument (fun _ => Except.error ()) "missing.md" [] = (none, []) ∧
    mapGet (getDocument (fun _ => Except.error ()) "missing.md" []).2 "missing.md" = none :=
  getDocument_extraction_failure_undefined (fun _ => Except.error ()) "missing.md" [] rfl rfl

/-- C10: `getDocumentsChecksum` mutates its argument: after every call the
caller's array has been reordered in place into ascending-path order (a
sorted permutation of the input), and on the concrete unsorted input it is
not left unchanged even though the operation is conceptually a read-only
hash. -/
theorem getDocumentsChecksum_sorts_argument_in_place (makeMD5 : String → String)
    (stringify : List IndexedDocument → String) :
    (∀ documents, ((getDocumentsChecksum makeMD5 stringify documents).2).Sorted pathLe ∧
      ((getDocumentsChecksum makeMD5 stringify documents).2).Perm documents) ∧
    (getDocumentsChecksum makeMD5 stringify [docBeta, docAlpha]).2 ≠ [docBeta, docAlpha] := by
  refine ⟨fun documents =>
    ⟨List.sorted_insertionSort pathLe documents, List.perm_insertionSort pathLe documents⟩, ?_⟩
  intro h
  have hsorted : ([docBeta, docAlpha] : List IndexedDocument).Sorted pathLe := by
    rw [← h]
    exact List.sorted_insertionSort pathLe _
  have hle : pathLe docBeta docAlpha :=
    (List.sorted_cons.mp hsorted).1 docAlpha (by simp)
  have hnot : ¬ (docBeta.path ≤ docAlpha.path) := by
    rw [show docBeta.path = "beta.md" from rfl, show docAlpha.path = "alpha.md" from rfl,
      String.le_iff_toList_le]
    decide
  exact hnot hle

end Omnisearch
